import Mathlib

/-!
Shallow embedding of the DUPC packet builder (`comm_mkdupc.py`):
the `DJICmdV1Header` bit-packed header, the `encode_command_packet`
builder and the `get_known_payload` variant resolver, together with
proofs of the specification's claims about them.

Bytes are modelled as `Nat` values below 256 inside `List Nat` buffers;
16-bit machine words as `Nat` below 65536.  The two checksum algorithms
(`calc_pkt55_hdr_checksum`, `calc_pkt55_checksum`) live in a separate
collaborator module (`comm_dat2pcap`), outside the packet codec; they
are pure functions consumed only through their interface, so the
builder is parametrised over them: `cs8 seed bytes` receives the seed
and exactly the 3 header bytes the source passes (the source also
passes the byte count 3, already reflected in the length of the list),
and `cs16 bytes` receives exactly the checksummed prefix (the source
passes the whole allocation plus a byte count cutting off the final
2 bytes).
-/

namespace Dupc

/-- The ctypes `DJICmdV1Header` structure: the stored machine words
(`sof`, `header_crc8`, `sender_info`, `receiver_info`, `cmd_type_data`,
`cmd_set`, `cmd_id` are bytes; `ver_length_tag` and `seq_num` are
little-endian 16-bit words).  Total size is 11 bytes. -/
structure DJICmdV1Header where
  sof : Nat
  ver_length_tag : Nat
  header_crc8 : Nat
  sender_info : Nat
  receiver_info : Nat
  seq_num : Nat
  cmd_type_data : Nat
  cmd_set : Nat
  cmd_id : Nat
deriving Repr, DecidableEq

namespace DJICmdV1Header

/-- ctypes zero-initialises every field of a freshly created structure. -/
def zeroed : DJICmdV1Header :=
  ⟨0, 0, 0, 0, 0, 0, 0, 0, 0⟩

/-- Getter `__get_whole_length`: `self.ver_length_tag & 1023`. -/
def whole_length (h : DJICmdV1Header) : Nat :=
  h.ver_length_tag &&& 1023

/-- Setter `__set_whole_length`: `(self.ver_length_tag & 64512) | (value & 1023)`. -/
def set_whole_length (h : DJICmdV1Header) (v : Nat) : DJICmdV1Header :=
  { h with ver_length_tag := (h.ver_length_tag &&& 64512) ||| (v &&& 1023) }

/-- Getter `__get_version`: `(self.ver_length_tag & 64512) >> 10`. -/
def version (h : DJICmdV1Header) : Nat :=
  (h.ver_length_tag &&& 64512) >>> 10

/-- Setter `__set_version`: `(self.ver_length_tag & 1023) | ((value & 63) << 10)`. -/
def set_version (h : DJICmdV1Header) (v : Nat) : DJICmdV1Header :=
  { h with ver_length_tag := (h.ver_length_tag &&& 1023) ||| ((v &&& 63) <<< 10) }

/-- Getter `__get_sender_type`: `self.sender_info & 31`. -/
def sender_type (h : DJICmdV1Header) : Nat :=
  h.sender_info &&& 31

/-- Setter `__set_sender_type`: `(self.sender_info & 224) | (value & 31)`. -/
def set_sender_type (h : DJICmdV1Header) (v : Nat) : DJICmdV1Header :=
  { h with sender_info := (h.sender_info &&& 224) ||| (v &&& 31) }

/-- Getter `__get_sender_index`: `(self.sender_info & 224) >> 5`. -/
def sender_index (h : DJICmdV1Header) : Nat :=
  (h.sender_info &&& 224) >>> 5

/-- Setter `__set_sender_index`: `(self.sender_info & 31) | ((value & 7) << 5)`. -/
def set_sender_index (h : DJICmdV1Header) (v : Nat) : DJICmdV1Header :=
  { h with sender_info := (h.sender_info &&& 31) ||| ((v &&& 7) <<< 5) }

/-- Getter `__get_receiver_type`: `self.receiver_info & 31`. -/
def receiver_type (h : DJICmdV1Header) : Nat :=
  h.receiver_info &&& 31

/-- Setter `__set_receiver_type`: `(self.receiver_info & 224) | (value & 31)`. -/
def set_receiver_type (h : DJICmdV1Header) (v : Nat) : DJICmdV1Header :=
  { h with receiver_info := (h.receiver_info &&& 224) ||| (v &&& 31) }

/-- Getter `__get_receiver_index`: `(self.receiver_info & 224) >> 5`. -/
def receiver_index (h : DJICmdV1Header) : Nat :=
  (h.receiver_info &&& 224) >>> 5

/-- Setter `__set_receiver_index`: `(self.receiver_info & 31) | ((value & 7) << 5)`. -/
def set_receiver_index (h : DJICmdV1Header) (v : Nat) : DJICmdV1Header :=
  { h with receiver_info := (h.receiver_info &&& 31) ||| ((v &&& 7) <<< 5) }

/-- Getter `__get_packet_type`: `self.cmd_type_data >> 7`. -/
def packet_type (h : DJICmdV1Header) : Nat :=
  h.cmd_type_data >>> 7

/-- Setter `__set_packet_type`: `(self.cmd_type_data & 127) | ((value & 1) << 7)`. -/
def set_packet_type (h : DJICmdV1Header) (v : Nat) : DJICmdV1Header :=
  { h with cmd_type_data := (h.cmd_type_data &&& 127) ||| ((v &&& 1) <<< 7) }

/-- Getter `__get_ack_type`: `(self.cmd_type_data >> 5) & 3`. -/
def ack_type (h : DJICmdV1Header) : Nat :=
  (h.cmd_type_data >>> 5) &&& 3

/-- Setter `__set_ack_type`: `(self.cmd_type_data & 159) | ((value & 3) << 5)`. -/
def set_ack_type (h : DJICmdV1Header) (v : Nat) : DJICmdV1Header :=
  { h with cmd_type_data := (h.cmd_type_data &&& 159) ||| ((v &&& 3) <<< 5) }

/-- Getter `__get_encrypt_type`: `self.cmd_type_data & 7`. -/
def encrypt_type (h : DJICmdV1Header) : Nat :=
  h.cmd_type_data &&& 7

/-- Setter `__set_encrypt_type`: `(self.cmd_type_data & 248) | (value & 7)`. -/
def set_encrypt_type (h : DJICmdV1Header) (v : Nat) : DJICmdV1Header :=
  { h with cmd_type_data := (h.cmd_type_data &&& 248) ||| (v &&& 7) }

/-- ctypes `sizeof(DJICmdV1Header)` with `_pack_ = 1`:
1 + 2 + 1 + 1 + 1 + 2 + 1 + 1 + 1 = 11 bytes. -/
def sizeof_hdr : Nat := 1 + 2 + 1 + 1 + 1 + 2 + 1 + 1 + 1

/-- Constructor `__init__`: on the zero-initialised structure, `sof = 0x55`, then
`version = 1`, then `whole_length = sizeof(self) + 2` (both through the
bit-packing property setters). -/
def init : DJICmdV1Header :=
  ({ zeroed with sof := 0x55 }.set_version 1).set_whole_length (sizeof_hdr + 2)

/-- The 11-byte in-memory representation (little-endian 16-bit words). -/
def toBytes (h : DJICmdV1Header) : List Nat :=
  [h.sof % 256,
   h.ver_length_tag % 256, h.ver_length_tag / 256 % 256,
   h.header_crc8 % 256,
   h.sender_info % 256,
   h.receiver_info % 256,
   h.seq_num % 256, h.seq_num / 256 % 256,
   h.cmd_type_data % 256,
   h.cmd_set % 256,
   h.cmd_id % 256]

/-- Decoding `DJICmdV1Header.from_buffer_copy`: rebuild the stored words from a
byte buffer.  ctypes raises `ValueError` unless the buffer holds at
least `sizeof(DJICmdV1Header)` bytes (modelled as `none`); extra bytes
beyond the structure size are ignored. -/
def fromBytes (b : List Nat) : Option DJICmdV1Header :=
  if b.length < sizeof_hdr then none
  else some
    { sof := b.getD 0 0 % 256
      ver_length_tag := b.getD 1 0 % 256 + 256 * (b.getD 2 0 % 256)
      header_crc8 := b.getD 3 0 % 256
      sender_info := b.getD 4 0 % 256
      receiver_info := b.getD 5 0 % 256
      seq_num := b.getD 6 0 % 256 + 256 * (b.getD 7 0 % 256)
      cmd_type_data := b.getD 8 0 % 256
      cmd_set := b.getD 9 0 % 256
      cmd_id := b.getD 10 0 % 256 }

end DJICmdV1Header

/-- The header produced inside `encode_command_packet`, after all the
assignments of the source function, in source order: `__init__`, then
`whole_length = sizeof(pkthead) + len(payload) + 2`, then
`header_crc8 = calc_pkt55_hdr_checksum(0x77, first 3 header bytes, 3)`
(a `c_ubyte` store, hence `% 256`), then the routing/command setters,
with the plain `c_ushort`/`c_ubyte` stores truncating silently. -/
def encodedHeader (cs8 : Nat → List Nat → Nat)
    (sender_type sender_index receiver_type receiver_index seq_num
     pack_type ack_type encrypt_type cmd_set cmd_id payload_len : Nat) :
    DJICmdV1Header :=
  let h := DJICmdV1Header.init
  let h := h.set_whole_length (DJICmdV1Header.sizeof_hdr + payload_len + 2)
  let h := { h with header_crc8 := cs8 0x77 (h.toBytes.take 3) % 256 }
  let h := h.set_sender_type sender_type
  let h := h.set_sender_index sender_index
  let h := h.set_receiver_type receiver_type
  let h := h.set_receiver_index receiver_index
  let h := { h with seq_num := seq_num % 65536 }
  let h := h.set_packet_type pack_type
  let h := h.set_ack_type ack_type
  let h := h.set_encrypt_type encrypt_type
  let h := { h with cmd_set := cmd_set % 256 }
  { h with cmd_id := cmd_id % 256 }

/-- Builder `encode_command_packet`: build the header, then the output buffer
`header bytes ++ payload ++ footer`, where the footer is the 2-byte
little-endian `crc16 = calc_pkt55_checksum(enc_data, sizeof(enc_data)-2)`
(a `c_ushort` store, hence `% 65536`), computed over the header and
payload bytes.

The source allocates the buffer with `pkthead.whole_length` bytes; for
`len(payload) <= 1010` this equals `11 + len(payload) + 2` and the two
`memmove` calls fill it exactly as concatenation does.  (For larger
payloads the 10-bit masked `whole_length` undercounts and the source's
`memmove` writes past the allocation — undefined behaviour; the model
is faithful on the in-bounds regime, which the length theorems assume.) -/
def encode_command_packet (cs8 : Nat → List Nat → Nat) (cs16 : List Nat → Nat)
    (sender_type sender_index receiver_type receiver_index seq_num
     pack_type ack_type encrypt_type cmd_set cmd_id : Nat)
    (payload : List Nat) : List Nat :=
  let pkthead := encodedHeader cs8 sender_type sender_index receiver_type
    receiver_index seq_num pack_type ack_type encrypt_type cmd_set cmd_id
    payload.length
  let body := pkthead.toBytes ++ payload
  let crc := cs16 body % 65536
  body ++ [crc % 256, crc / 256 % 256]

/-! ## Payload structures and the variant resolver -/

/-- Little-endian 16-bit read at `off` from a byte buffer. -/
def u16le (b : List Nat) (off : Nat) : Nat :=
  b.getD off 0 + 256 * b.getD (off + 1) 0

/-- Little-endian 32-bit read at `off` from a byte buffer. -/
def u32le (b : List Nat) (off : Nat) : Nat :=
  b.getD off 0 + 256 * b.getD (off + 1) 0 + 65536 * b.getD (off + 2) 0 +
    16777216 * b.getD (off + 3) 0

/-- Little-endian signed (two's complement) 32-bit read at `off`. -/
def i32le (b : List Nat) (off : Nat) : Int :=
  if u32le b off < 2 ^ 31 then (u32le b off : Int)
  else (u32le b off : Int) - 2 ^ 32

/-- Python `bytes.ljust(width, b'\0')`: right-pad with zero bytes up to
`width`; a buffer already at least that long is returned unchanged. -/
def ljust (b : List Nat) (width : Nat) : List Nat :=
  b ++ List.replicate (width - b.length) 0

/-- Structure `DJIPayload_General_VersionInquiryRe` (31 bytes): two unknown
bytes, a 16-byte `hw_version` text field, three 32-bit words, one
trailing byte. -/
structure DJIPayload_General_VersionInquiryRe where
  unknown0 : Nat
  unknown1 : Nat
  hw_version : List Nat
  ldr_version : Nat
  app_version : Nat
  unknown1A : Nat
  unknown1E : Nat
deriving Repr, DecidableEq

/-- ctypes size of `DJIPayload_General_VersionInquiryRe`. -/
def sizeof_VersionInquiryRe : Nat := 1 + 1 + 16 + 4 + 4 + 4 + 1

/-- Parse `DJIPayload_General_VersionInquiryRe` from its first 31
bytes (the raw 16 `hw_version` bytes are stored as-is; ctypes
NUL-truncates only when the field is read back as a Python value). -/
def parseVersionInquiryRe (b : List Nat) : DJIPayload_General_VersionInquiryRe :=
  { unknown0 := b.getD 0 0
    unknown1 := b.getD 1 0
    hw_version := (b.drop 2).take 16
    ldr_version := u32le b 18
    app_version := u32le b 22
    unknown1A := u32le b 26
    unknown1E := b.getD 30 0 }

/-- Structure `DJIPayload_General_ChipRebootRe` (1 byte). -/
structure DJIPayload_General_ChipRebootRe where
  status : Nat
deriving Repr, DecidableEq

/-- ctypes size of `DJIPayload_General_ChipRebootRe`. -/
def sizeof_ChipRebootRe : Nat := 1

/-- Parse `DJIPayload_General_ChipRebootRe` from its first byte. -/
def parseChipRebootRe (b : List Nat) : DJIPayload_General_ChipRebootRe :=
  { status := b.getD 0 0 }

/-- Structure `DJIPayload_FlyController_GetParamDefinition2015Rq` (2 bytes). -/
structure DJIPayload_FlyController_GetParamDefinition2015Rq where
  param_index : Nat
deriving Repr, DecidableEq

/-- ctypes size of `DJIPayload_FlyController_GetParamDefinition2015Rq`. -/
def sizeof_GetParamDefinition2015Rq : Nat := 2

/-- Parse `DJIPayload_FlyController_GetParamDefinition2015Rq`. -/
def parseGetParamDefinition2015Rq (b : List Nat) :
    DJIPayload_FlyController_GetParamDefinition2015Rq :=
  { param_index := u16le b 0 }

/-- Constant `DJIPayload_FlyController_ParamMaxLen = 160`: the constant size
chosen for the variable-length `name` field. -/
def DJIPayload_FlyController_ParamMaxLen : Nat := 160

/-- Structure `DJIPayload_FlyController_GetParamDefinitionEOL2015Re` (1 byte):
the short "end of parameter list" record. -/
structure DJIPayload_FlyController_GetParamDefinitionEOL2015Re where
  status : Nat
deriving Repr, DecidableEq

/-- ctypes size of the EOL record. -/
def sizeof_GetParamDefinitionEOL2015Re : Nat := 1

/-- Parse the EOL record from its first byte. -/
def parseGetParamDefinitionEOL2015Re (b : List Nat) :
    DJIPayload_FlyController_GetParamDefinitionEOL2015Re :=
  { status := b.getD 0 0 }

/-- Structure `DJIPayload_FlyController_GetParamDefinitionU2015Re`: status byte,
three 16-bit words (`type_id`, `size`, `attribute` — the last is a Lean
keyword, stored here as `attrib`), three unsigned 32-bit limit words
and a 160-byte name buffer. -/
structure DJIPayload_FlyController_GetParamDefinitionU2015Re where
  status : Nat
  type_id : Nat
  size : Nat
  attrib : Nat
  limit_min : Nat
  limit_max : Nat
  limit_def : Nat
  name : List Nat
deriving Repr, DecidableEq

/-- ctypes size of the unsigned-limits record:
1 + 2 + 2 + 2 + 4 + 4 + 4 + 160 = 179. -/
def sizeof_GetParamDefinitionU2015Re : Nat :=
  1 + 2 + 2 + 2 + 4 + 4 + 4 + DJIPayload_FlyController_ParamMaxLen

/-- Parse the unsigned-limits record from its first 179 bytes (raw
`name` bytes stored as-is, NUL-truncation happens only on read-back). -/
def parseGetParamDefinitionU2015Re (b : List Nat) :
    DJIPayload_FlyController_GetParamDefinitionU2015Re :=
  { status := b.getD 0 0
    type_id := u16le b 1
    size := u16le b 3
    attrib := u16le b 5
    limit_min := u32le b 7
    limit_max := u32le b 11
    limit_def := u32le b 15
    name := (b.drop 19).take DJIPayload_FlyController_ParamMaxLen }

/-- Structure `DJIPayload_FlyController_GetParamDefinitionI2015Re`: same layout
with signed (`c_int`) 32-bit limit fields. -/
structure DJIPayload_FlyController_GetParamDefinitionI2015Re where
  status : Nat
  type_id : Nat
  size : Nat
  attrib : Nat
  limit_min : Int
  limit_max : Int
  limit_def : Int
  name : List Nat
deriving Repr, DecidableEq

/-- ctypes size of the signed-limits record (also 179). -/
def sizeof_GetParamDefinitionI2015Re : Nat :=
  1 + 2 + 2 + 2 + 4 + 4 + 4 + DJIPayload_FlyController_ParamMaxLen

/-- Parse the signed-limits record from its first 179 bytes. -/
def parseGetParamDefinitionI2015Re (b : List Nat) :
    DJIPayload_FlyController_GetParamDefinitionI2015Re :=
  { status := b.getD 0 0
    type_id := u16le b 1
    size := u16le b 3
    attrib := u16le b 5
    limit_min := i32le b 7
    limit_max := i32le b 11
    limit_def := i32le b 15
    name := (b.drop 19).take DJIPayload_FlyController_ParamMaxLen }

/-- Structure `DJIPayload_FlyController_GetParamDefinitionF2015Re`: same layout
with `c_float` 32-bit limit fields.  A `c_float` cell holds exactly the
32 bits copied from the buffer; the record is modelled by those raw
little-endian words (IEEE-754 interpretation only happens when a field
is read back as a Python float, which no claim depends on). -/
structure DJIPayload_FlyController_GetParamDefinitionF2015Re where
  status : Nat
  type_id : Nat
  size : Nat
  attrib : Nat
  limit_min : Nat
  limit_max : Nat
  limit_def : Nat
  name : List Nat
deriving Repr, DecidableEq

/-- ctypes size of the float-limits record (also 179). -/
def sizeof_GetParamDefinitionF2015Re : Nat :=
  1 + 2 + 2 + 2 + 4 + 4 + 4 + DJIPayload_FlyController_ParamMaxLen

/-- Parse the float-limits record from its first 179 bytes, keeping the
raw 32-bit words of the three `c_float` cells. -/
def parseGetParamDefinitionF2015Re (b : List Nat) :
    DJIPayload_FlyController_GetParamDefinitionF2015Re :=
  { status := b.getD 0 0
    type_id := u16le b 1
    size := u16le b 3
    attrib := u16le b 5
    limit_min := u32le b 7
    limit_max := u32le b 11
    limit_def := u32le b 15
    name := (b.drop 19).take DJIPayload_FlyController_ParamMaxLen }

/-- The possible structured results of `get_known_payload` (the Python
function returns an instance of one of these classes, or `None`). -/
inductive KnownPayload where
  | generalVersionInquiryRe (r : DJIPayload_General_VersionInquiryRe)
  | generalChipRebootRe (r : DJIPayload_General_ChipRebootRe)
  | fcGetParamDefinition2015Rq (r : DJIPayload_FlyController_GetParamDefinition2015Rq)
  | fcGetParamDefinitionEOL2015Re (r : DJIPayload_FlyController_GetParamDefinitionEOL2015Re)
  | fcGetParamDefinitionU2015Re (r : DJIPayload_FlyController_GetParamDefinitionU2015Re)
  | fcGetParamDefinitionI2015Re (r : DJIPayload_FlyController_GetParamDefinitionI2015Re)
  | fcGetParamDefinitionF2015Re (r : DJIPayload_FlyController_GetParamDefinitionF2015Re)
deriving Repr, DecidableEq

/-- Resolver `get_known_payload(pkthead, payload)`, mirroring the source's
control flow.  `CMD_SET_TYPE.GENERAL.value = 0`,
`CMD_SET_TYPE.FLYCONTROLLER.value = 3`; `pkthead.packet_type` is the
bit-field getter (top bit of `cmd_type_data`); falling through every
branch returns `None`. -/
def get_known_payload (pkthead : DJICmdV1Header) (payload : List Nat) :
    Option KnownPayload :=
  if pkthead.cmd_set = 0 ∧ pkthead.packet_type = 1 ∧ pkthead.cmd_id = 0x01 ∧
      sizeof_VersionInquiryRe ≤ payload.length then
    some (.generalVersionInquiryRe (parseVersionInquiryRe payload))
  else if pkthead.cmd_set = 0 ∧ pkthead.packet_type = 1 ∧ pkthead.cmd_id = 0x0b ∧
      sizeof_ChipRebootRe ≤ payload.length then
    some (.generalChipRebootRe (parseChipRebootRe payload))
  else if pkthead.cmd_set = 3 ∧ pkthead.packet_type = 0 ∧ pkthead.cmd_id = 0xf0 ∧
      sizeof_GetParamDefinition2015Rq ≤ payload.length then
    some (.fcGetParamDefinition2015Rq (parseGetParamDefinition2015Rq payload))
  else if pkthead.cmd_set = 3 ∧ pkthead.packet_type = 1 ∧ pkthead.cmd_id = 0xf0 then
    if sizeof_GetParamDefinitionU2015Re - DJIPayload_FlyController_ParamMaxLen + 1 ≤
        payload.length then
      let out_payload := parseGetParamDefinitionU2015Re
        (ljust payload sizeof_GetParamDefinitionU2015Re)
      if 4 ≤ out_payload.type_id ∧ out_payload.type_id ≤ 7 then
        some (.fcGetParamDefinitionI2015Re (parseGetParamDefinitionI2015Re
          (ljust payload sizeof_GetParamDefinitionI2015Re)))
      else if out_payload.type_id = 8 ∨ out_payload.type_id = 9 then
        some (.fcGetParamDefinitionF2015Re (parseGetParamDefinitionF2015Re
          (ljust payload sizeof_GetParamDefinitionF2015Re)))
      else
        some (.fcGetParamDefinitionU2015Re out_payload)
    else if sizeof_GetParamDefinitionEOL2015Re ≤ payload.length then
      some (.fcGetParamDefinitionEOL2015Re (parseGetParamDefinitionEOL2015Re payload))
    else
      none
  else
    none

end Dupc

/-! ## Bitwise arithmetic helpers -/

theorem land_1 (x : Nat) : x &&& 1 = x % 2 := Nat.and_one_is_mod x

theorem land_3 (x : Nat) : x &&& 3 = x % 4 := by
  have h := Nat.and_pow_two_sub_one_eq_mod x 2; norm_num at h; exact h

theorem land_7 (x : Nat) : x &&& 7 = x % 8 := by
  have h := Nat.and_pow_two_sub_one_eq_mod x 3; norm_num at h; exact h

theorem land_31 (x : Nat) : x &&& 31 = x % 32 := by
  have h := Nat.and_pow_two_sub_one_eq_mod x 5; norm_num at h; exact h

theorem land_63 (x : Nat) : x &&& 63 = x % 64 := by
  have h := Nat.and_pow_two_sub_one_eq_mod x 6; norm_num at h; exact h

theorem land_127 (x : Nat) : x &&& 127 = x % 128 := by
  have h := Nat.and_pow_two_sub_one_eq_mod x 7; norm_num at h; exact h

theorem land_1023 (x : Nat) : x &&& 1023 = x % 1024 := by
  have h := Nat.and_pow_two_sub_one_eq_mod x 10; norm_num at h; exact h

theorem land_shifted (x m k : Nat) : x &&& (m <<< k) = ((x >>> k) &&& m) <<< k := by
  apply Nat.eq_of_testBit_eq
  intro i
  simp only [Nat.testBit_and, Nat.testBit_shiftLeft, Nat.testBit_shiftRight]
  by_cases h : k ≤ i
  · have h2 : k + (i - k) = i := by omega
    simp [h, h2, Bool.and_left_comm, Bool.and_comm]
  · simp [h]

theorem land_224 (x : Nat) : x &&& 224 = x / 32 % 8 * 32 := by
  have h := land_shifted x 7 5
  rw [show (7 : Nat) <<< 5 = 224 by norm_num [Nat.shiftLeft_eq]] at h
  rw [h, Nat.shiftLeft_eq, Nat.shiftRight_eq_div_pow, land_7]

theorem land_248 (x : Nat) : x &&& 248 = x / 8 % 32 * 8 := by
  have h := land_shifted x 31 3
  rw [show (31 : Nat) <<< 3 = 248 by norm_num [Nat.shiftLeft_eq]] at h
  rw [h, Nat.shiftLeft_eq, Nat.shiftRight_eq_div_pow, land_31]

theorem land_64512 (x : Nat) : x &&& 64512 = x / 1024 % 64 * 1024 := by
  have h := land_shifted x 63 10
  rw [show (63 : Nat) <<< 10 = 64512 by norm_num [Nat.shiftLeft_eq]] at h
  rw [h, Nat.shiftLeft_eq, Nat.shiftRight_eq_div_pow, land_63]

theorem land_128 (x : Nat) : x &&& 128 = x / 128 % 2 * 128 := by
  have h := land_shifted x 1 7
  rw [show (1 : Nat) <<< 7 = 128 by norm_num [Nat.shiftLeft_eq]] at h
  rw [h, Nat.shiftLeft_eq, Nat.shiftRight_eq_div_pow, land_1]

theorem shl_or_eq_add (a b k : Nat) (hb : b < 2 ^ k) :
    (a <<< k) ||| b = a * 2 ^ k + b := by
  rw [Nat.shiftLeft_eq, mul_comm]
  exact (Nat.mul_add_lt_is_or hb a).symm

theorem or_shl_eq_add (a b k : Nat) (hb : b < 2 ^ k) :
    b ||| (a <<< k) = a * 2 ^ k + b := by
  rw [Nat.or_comm]; exact shl_or_eq_add a b k hb

theorem land_159 (x : Nat) : x &&& 159 = x / 128 % 2 * 128 + x % 32 := by
  rw [show (159 : Nat) = 128 ||| 31 by decide, Nat.and_or_distrib_left,
    land_128, land_31]
  have h := shl_or_eq_add (x / 128 % 2) (x % 32) 7
    (lt_of_lt_of_le (Nat.mod_lt x (by norm_num)) (by norm_num))
  rw [Nat.shiftLeft_eq] at h
  norm_num at h ⊢
  omega

namespace Dupc

/-- Packed version/length word of every built packet: version 1 in the
high 6 bits and the masked total length in the low 10 bits. -/
def packedTag (payload_len : Nat) : Nat :=
  1024 + (DJICmdV1Header.sizeof_hdr + payload_len + 2) % 1024

theorem init_eq : DJICmdV1Header.init = ⟨85, 1037, 0, 0, 0, 0, 0, 0, 0⟩ := by
  decide

theorem tag_or_1024 (b : Nat) : 1024 ||| b % 1024 = 1024 + b % 1024 := by
  have h := shl_or_eq_add 1 (b % 1024) 10 (Nat.mod_lt b (by norm_num))
  norm_num [Nat.shiftLeft_eq] at h
  omega

theorem encodedHeader_ver_length_tag (cs8 : Nat → List Nat → Nat)
    (st si rt ri sq pt ak et cs ci len : Nat) :
    (encodedHeader cs8 st si rt ri sq pt ak et cs ci len).ver_length_tag =
      packedTag len := by
  simp only [encodedHeader, init_eq, DJICmdV1Header.set_whole_length,
    DJICmdV1Header.set_sender_type, DJICmdV1Header.set_sender_index,
    DJICmdV1Header.set_receiver_type, DJICmdV1Header.set_receiver_index,
    DJICmdV1Header.set_packet_type, DJICmdV1Header.set_ack_type,
    DJICmdV1Header.set_encrypt_type, packedTag]
  rw [show (1037 : Nat) &&& 64512 = 1024 by decide, land_1023, tag_or_1024]

theorem encodedHeader_sof (cs8 : Nat → List Nat → Nat)
    (st si rt ri sq pt ak et cs ci len : Nat) :
    (encodedHeader cs8 st si rt ri sq pt ak et cs ci len).sof = 0x55 := rfl

theorem encodedHeader_seq_num (cs8 : Nat → List Nat → Nat)
    (st si rt ri sq pt ak et cs ci len : Nat) :
    (encodedHeader cs8 st si rt ri sq pt ak et cs ci len).seq_num =
      sq % 65536 := rfl

theorem encodedHeader_cmd_set (cs8 : Nat → List Nat → Nat)
    (st si rt ri sq pt ak et cs ci len : Nat) :
    (encodedHeader cs8 st si rt ri sq pt ak et cs ci len).cmd_set =
      cs % 256 := rfl

theorem encodedHeader_cmd_id (cs8 : Nat → List Nat → Nat)
    (st si rt ri sq pt ak et cs ci len : Nat) :
    (encodedHeader cs8 st si rt ri sq pt ak et cs ci len).cmd_id =
      ci % 256 := rfl

theorem sender_word_pack (t i : Nat) :
    (((0 &&& 224) ||| (t &&& 31)) &&& 31) ||| ((i &&& 7) <<< 5) =
      32 * (i % 8) + t % 32 := by
  rw [Nat.zero_and, Nat.zero_or, land_31, land_31, land_7,
    or_shl_eq_add (i % 8) (t % 32 % 32) 5
      (lt_of_lt_of_le (Nat.mod_lt _ (by norm_num)) (by norm_num))]
  omega

end Dupc

namespace Dupc

theorem encodedHeader_sender_info (cs8 : Nat → List Nat → Nat)
    (st si rt ri sq pt ak et cs ci len : Nat) :
    (encodedHeader cs8 st si rt ri sq pt ak et cs ci len).sender_info =
      32 * (si % 8) + st % 32 := by
  simp only [encodedHeader, init_eq, DJICmdV1Header.set_whole_length,
    DJICmdV1Header.set_sender_type, DJICmdV1Header.set_sender_index,
    DJICmdV1Header.set_receiver_type, DJICmdV1Header.set_receiver_index,
    DJICmdV1Header.set_packet_type, DJICmdV1Header.set_ack_type,
    DJICmdV1Header.set_encrypt_type]
  exact sender_word_pack st si

theorem encodedHeader_receiver_info (cs8 : Nat → List Nat → Nat)
    (st si rt ri sq pt ak et cs ci len : Nat) :
    (encodedHeader cs8 st si rt ri sq pt ak et cs ci len).receiver_info =
      32 * (ri % 8) + rt % 32 := by
  simp only [encodedHeader, init_eq, DJICmdV1Header.set_whole_length,
    DJICmdV1Header.set_sender_type, DJICmdV1Header.set_sender_index,
    DJICmdV1Header.set_receiver_type, DJICmdV1Header.set_receiver_index,
    DJICmdV1Header.set_packet_type, DJICmdV1Header.set_ack_type,
    DJICmdV1Header.set_encrypt_type]
  exact sender_word_pack rt ri

theorem cmd_type_word_pack (pt ak et : Nat) :
    ((((((0 &&& 127) ||| ((pt &&& 1) <<< 7)) &&& 159) |||
        ((ak &&& 3) <<< 5)) &&& 248) ||| (et &&& 7)) =
      128 * (pt % 2) + 32 * (ak % 4) + et % 8 := by
  rw [Nat.zero_and, Nat.zero_or, land_1, land_3, land_7]
  rw [Nat.shiftLeft_eq, Nat.shiftLeft_eq]
  have hpt : pt % 2 < 2 := Nat.mod_lt pt (by norm_num)
  have hak : ak % 4 < 4 := Nat.mod_lt ak (by norm_num)
  have het : et % 8 < 8 := Nat.mod_lt et (by norm_num)
  rw [land_159]
  have e1 : pt % 2 * 2 ^ 7 / 128 % 2 * 128 + pt % 2 * 2 ^ 7 % 32 =
      128 * (pt % 2) := by
    norm_num
    omega
  rw [e1]
  have e2 : 128 * (pt % 2) ||| ak % 4 * 2 ^ 5 =
      128 * (pt % 2) + 32 * (ak % 4) := by
    rcases Nat.mod_two_eq_zero_or_one pt with h | h <;> rw [h]
    · norm_num
      ring
    · rw [show (128 : Nat) * 1 = 1 <<< 7 by decide,
        shl_or_eq_add 1 (ak % 4 * 2 ^ 5) 7 (by omega)]
      norm_num [Nat.shiftLeft_eq]
      ring
  rw [e2, land_248]
  have e3 : (128 * (pt % 2) + 32 * (ak % 4)) / 8 % 32 * 8 =
      128 * (pt % 2) + 32 * (ak % 4) := by omega
  rw [e3, show (128 * (pt % 2) + 32 * (ak % 4)) = (16 * (pt % 2) + 4 * (ak % 4)) <<< 3
      by rw [Nat.shiftLeft_eq]; ring,
    shl_or_eq_add _ _ 3 (by omega)]
  norm_num [Nat.shiftLeft_eq]

theorem encodedHeader_cmd_type_data (cs8 : Nat → List Nat → Nat)
    (st si rt ri sq pt ak et cs ci len : Nat) :
    (encodedHeader cs8 st si rt ri sq pt ak et cs ci len).cmd_type_data =
      128 * (pt % 2) + 32 * (ak % 4) + et % 8 := by
  simp only [encodedHeader, init_eq, DJICmdV1Header.set_whole_length,
    DJICmdV1Header.set_sender_type, DJICmdV1Header.set_sender_index,
    DJICmdV1Header.set_receiver_type, DJICmdV1Header.set_receiver_index,
    DJICmdV1Header.set_packet_type, DJICmdV1Header.set_ack_type,
    DJICmdV1Header.set_encrypt_type]
  exact cmd_type_word_pack pt ak et

theorem encodedHeader_header_crc8 (cs8 : Nat → List Nat → Nat)
    (st si rt ri sq pt ak et cs ci len : Nat) :
    (encodedHeader cs8 st si rt ri sq pt ak et cs ci len).header_crc8 =
      cs8 0x77 [0x55, packedTag len % 256, packedTag len / 256 % 256] % 256 := by
  simp only [encodedHeader, init_eq, DJICmdV1Header.set_whole_length,
    DJICmdV1Header.set_sender_type, DJICmdV1Header.set_sender_index,
    DJICmdV1Header.set_receiver_type, DJICmdV1Header.set_receiver_index,
    DJICmdV1Header.set_packet_type, DJICmdV1Header.set_ack_type,
    DJICmdV1Header.set_encrypt_type, DJICmdV1Header.toBytes, List.take]
  rw [show (1037 : Nat) &&& 64512 = 1024 by decide, land_1023, tag_or_1024]
  rfl

end Dupc

namespace Dupc

theorem encode_eq (cs8 : Nat → List Nat → Nat) (cs16 : List Nat → Nat)
    (st si rt ri sq pt ak et cs ci : Nat) (p : List Nat) :
    encode_command_packet cs8 cs16 st si rt ri sq pt ak et cs ci p =
      (encodedHeader cs8 st si rt ri sq pt ak et cs ci p.length).toBytes ++ p ++
        [cs16 ((encodedHeader cs8 st si rt ri sq pt ak et cs ci p.length).toBytes
            ++ p) % 65536 % 256,
         cs16 ((encodedHeader cs8 st si rt ri sq pt ak et cs ci p.length).toBytes
            ++ p) % 65536 / 256 % 256] := by
  simp only [encode_command_packet, List.append_assoc]

theorem packedTag_lt (len : Nat) : packedTag len < 2048 := by
  have := Nat.mod_lt (DJICmdV1Header.sizeof_hdr + len + 2) (show 0 < 1024 by norm_num)
  simp only [packedTag]
  omega

theorem encodedHeader_toBytes (cs8 : Nat → List Nat → Nat)
    (st si rt ri sq pt ak et cs ci len : Nat) :
    (encodedHeader cs8 st si rt ri sq pt ak et cs ci len).toBytes =
      [0x55, packedTag len % 256, packedTag len / 256 % 256,
       cs8 0x77 [0x55, packedTag len % 256, packedTag len / 256 % 256] % 256,
       32 * (si % 8) + st % 32,
       32 * (ri % 8) + rt % 32,
       sq % 65536 % 256, sq % 65536 / 256 % 256,
       128 * (pt % 2) + 32 * (ak % 4) + et % 8,
       cs % 256, ci % 256] := by
  rw [DJICmdV1Header.toBytes, encodedHeader_ver_length_tag, encodedHeader_sof,
    encodedHeader_header_crc8, encodedHeader_sender_info,
    encodedHeader_receiver_info, encodedHeader_seq_num,
    encodedHeader_cmd_type_data, encodedHeader_cmd_set, encodedHeader_cmd_id]
  have hsi : 32 * (si % 8) + st % 32 < 256 := by
    have := Nat.mod_lt si (show 0 < 8 by norm_num)
    have := Nat.mod_lt st (show 0 < 32 by norm_num)
    omega
  have hri : 32 * (ri % 8) + rt % 32 < 256 := by
    have := Nat.mod_lt ri (show 0 < 8 by norm_num)
    have := Nat.mod_lt rt (show 0 < 32 by norm_num)
    omega
  have hct : 128 * (pt % 2) + 32 * (ak % 4) + et % 8 < 256 := by
    have := Nat.mod_lt pt (show 0 < 2 by norm_num)
    have := Nat.mod_lt ak (show 0 < 4 by norm_num)
    have := Nat.mod_lt et (show 0 < 8 by norm_num)
    omega
  have mm : ∀ x : Nat, x % 256 % 256 = x % 256 := fun x =>
    Nat.mod_mod_of_dvd x dvd_rfl
  simp only [mm, Nat.mod_eq_of_lt hsi, Nat.mod_eq_of_lt hri,
    Nat.mod_eq_of_lt hct]

end Dupc

namespace Dupc

theorem encode_eq' (cs8 : Nat → List Nat → Nat) (cs16 : List Nat → Nat)
    (st si rt ri sq pt ak et cs ci : Nat) (p : List Nat) :
    encode_command_packet cs8 cs16 st si rt ri sq pt ak et cs ci p =
      ((encodedHeader cs8 st si rt ri sq pt ak et cs ci p.length).toBytes ++ p) ++
        [cs16 ((encodedHeader cs8 st si rt ri sq pt ak et cs ci p.length).toBytes
            ++ p) % 65536 % 256,
         cs16 ((encodedHeader cs8 st si rt ri sq pt ak et cs ci p.length).toBytes
            ++ p) % 65536 / 256 % 256] := rfl

theorem encode_getD3 (cs8 : Nat → List Nat → Nat) (cs16 : List Nat → Nat)
    (st si rt ri sq pt ak et cs ci : Nat) (p : List Nat) :
    (encode_command_packet cs8 cs16 st si rt ri sq pt ak et cs ci p).getD 3 0 =
      cs8 0x77 [0x55, packedTag p.length % 256, packedTag p.length / 256 % 256]
        % 256 := by
  rw [encode_eq, encodedHeader_toBytes]
  simp

theorem encode_take3 (cs8 : Nat → List Nat → Nat) (cs16 : List Nat → Nat)
    (st si rt ri sq pt ak et cs ci : Nat) (p : List Nat) :
    (encode_command_packet cs8 cs16 st si rt ri sq pt ak et cs ci p).take 3 =
      [0x55, packedTag p.length % 256, packedTag p.length / 256 % 256] := by
  rw [encode_eq, encodedHeader_toBytes]
  simp

/-- C2: in every packet built by `encode_command_packet`, the
`headerChecksum` byte (offset 3) equals `checksum8` applied with the
fixed seed `0x77` to exactly the first 3 header bytes of the packet
(start marker plus the packed version/length word), and two builds that
differ only in the sender, receiver, sequence-number, command-type,
command-set or command-id inputs produce the same `headerChecksum`
byte.  `cs8` stands for the external `calc_pkt55_hdr_checksum`
collaborator, assumed (as an 8-bit checksum) to return a byte. -/
theorem C2_header_checksum_first_three_bytes
    (cs8 : Nat → List Nat → Nat) (cs16 : List Nat → Nat)
    (hc8 : ∀ s b, cs8 s b < 256)
    (st si rt ri sq pt ak et cs ci : Nat)
    (st' si' rt' ri' sq' pt' ak' et' cs' ci' : Nat) (p : List Nat) :
    (encode_command_packet cs8 cs16 st si rt ri sq pt ak et cs ci p).getD 3 0 =
      cs8 0x77
        ((encode_command_packet cs8 cs16 st si rt ri sq pt ak et cs ci p).take 3) ∧
    (encode_command_packet cs8 cs16 st si rt ri sq pt ak et cs ci p).getD 3 0 =
      (encode_command_packet cs8 cs16 st' si' rt' ri' sq' pt' ak' et' cs' ci' p).getD
        3 0 := by
  constructor
  · rw [encode_getD3, encode_take3, Nat.mod_eq_of_lt (hc8 _ _)]
  · rw [encode_getD3, encode_getD3]

/-- Witness for C2 at concrete inputs: with the constant checksum
collaborator `fun _ _ => 7`, the checksum byte of a built packet is 7,
and builds with different routing fields share that byte. -/
theorem C2_header_checksum_first_three_bytes_witness :
    (encode_command_packet (fun _ _ => 7) (fun _ => 0)
        1 2 3 4 5 6 7 8 9 10 [0, 1]).getD 3 0 = 7 ∧
    (encode_command_packet (fun _ _ => 7) (fun _ => 0)
        1 2 3 4 5 6 7 8 9 10 [0, 1]).getD 3 0 =
      (encode_command_packet (fun _ _ => 7) (fun _ => 0)
        0 0 0 0 0 0 0 0 0 0 [0, 1]).getD 3 0 := by
  have h := C2_header_checksum_first_three_bytes (fun _ _ => 7) (fun _ => 0)
    (fun _ _ => by norm_num) 1 2 3 4 5 6 7 8 9 10 0 0 0 0 0 0 0 0 0 0 [0, 1]
  exact ⟨h.1, h.2⟩

/-- C9: every packet built by `encode_command_packet` carries protocol
version 1 in the high 6 bits of the packed version/length word (bytes 1
and 2, little-endian) — the constructor fixes `version = 1` and no later
step of the build modifies it. -/
theorem C9_version_always_one
    (cs8 : Nat → List Nat → Nat) (cs16 : List Nat → Nat)
    (st si rt ri sq pt ak et cs ci : Nat) (p : List Nat) :
    (((encode_command_packet cs8 cs16 st si rt ri sq pt ak et cs ci p).getD 1 0 +
        256 * (encode_command_packet cs8 cs16 st si rt ri sq pt ak et cs ci
          p).getD 2 0) &&& 64512) >>> 10 = 1 := by
  rw [encode_eq, encodedHeader_toBytes]
  simp only [List.cons_append, List.getD_cons_succ, List.getD_cons_zero]
  have h1 := packedTag_lt p.length
  have h2 : 1024 ≤ packedTag p.length := by
    simp only [packedTag]; omega
  have e : packedTag p.length % 256 + 256 * (packedTag p.length / 256 % 256) =
      packedTag p.length := by omega
  rw [e, land_64512, Nat.shiftRight_eq_div_pow]
  norm_num
  omega

end Dupc

namespace Dupc

/-- C4 counterexample: with the empty payload, the low 10 bits of the
packed version/length word of a built packet hold 13 = 11 + 0 + 2 — not
9 + 0 + 2 = 11 as the claim's header size of 9 would give — and the
returned buffer has 13 bytes.  (`sizeof(DJICmdV1Header)` is 11, not 9:
the 9-byte figure in the claim/spec contradicts the spec's own wire
layout, whose header spans offsets 0..10.) -/
theorem C4_total_length_counterexample :
    u16le (encode_command_packet (fun _ _ => 0) (fun _ => 0)
        0 0 0 0 0 0 0 0 0 0 []) 1 &&& 1023 = 13 ∧
    (9 + 0 + 2 ≠ 13) ∧
    (encode_command_packet (fun _ _ => 0) (fun _ => 0)
        0 0 0 0 0 0 0 0 0 0 []).length = 13 := by
  decide

/-- C4 (amended): for every payload `p` with `len(p) <= 1008` (so that
the total fits the 10-bit length field; the source performs no bounds
check and masks silently beyond it), the packet built by
`encode_command_packet` stores in the low 10 bits of the packed
version/length word a `totalLength` equal to 11 (header size) +
`len(p)` + 2 (footer size), and the returned buffer has exactly
`totalLength` bytes. -/
theorem C4_total_length_invariant
    (cs8 : Nat → List Nat → Nat) (cs16 : List Nat → Nat)
    (st si rt ri sq pt ak et cs ci : Nat) (p : List Nat)
    (hlen : p.length ≤ 1008) :
    u16le (encode_command_packet cs8 cs16 st si rt ri sq pt ak et cs ci p) 1 &&&
      1023 = 11 + p.length + 2 ∧
    (encode_command_packet cs8 cs16 st si rt ri sq pt ak et cs ci p).length =
      11 + p.length + 2 := by
  constructor
  · rw [u16le, encode_eq, encodedHeader_toBytes]
    simp only [List.cons_append, List.getD_cons_succ, List.getD_cons_zero]
    have h1 := packedTag_lt p.length
    have e : packedTag p.length % 256 + 256 * (packedTag p.length / 256 % 256) =
        packedTag p.length := by omega
    rw [e, land_1023]
    simp only [packedTag, DJICmdV1Header.sizeof_hdr]
    omega
  · rw [encode_eq, encodedHeader_toBytes]
    simp
    omega

/-- Witness for C4 (amended) at a concrete input: a 3-byte payload
yields a 16-byte packet whose packed length field holds 16. -/
theorem C4_total_length_invariant_witness :
    u16le (encode_command_packet (fun _ _ => 0) (fun _ => 0)
        0 0 0 0 0 0 0 0 0 0 [1, 2, 3]) 1 &&& 1023 = 11 + 3 + 2 ∧
    (encode_command_packet (fun _ _ => 0) (fun _ => 0)
        0 0 0 0 0 0 0 0 0 0 [1, 2, 3]).length = 11 + 3 + 2 := by
  have h := C4_total_length_invariant (fun _ _ => 0) (fun _ => 0)
    0 0 0 0 0 0 0 0 0 0 [1, 2, 3] (by norm_num)
  exact h

/-- C8: for `k` in `[0,7]`, building a packet with `senderIndex = k`
and with `senderIndex = k + 8` (all other inputs equal) produces
identical encoded byte buffers: the index is masked to 3 bits before
packing. -/
theorem C8_sender_index_masking
    (cs8 : Nat → List Nat → Nat) (cs16 : List Nat → Nat)
    (st rt ri sq pt ak et cs ci k : Nat) (p : List Nat) (_hk : k ≤ 7) :
    encode_command_packet cs8 cs16 st k rt ri sq pt ak et cs ci p =
      encode_command_packet cs8 cs16 st (k + 8) rt ri sq pt ak et cs ci p := by
  have h : (k + 8) &&& 7 = k &&& 7 := by rw [land_7, land_7]; omega
  simp only [encode_command_packet, encodedHeader,
    DJICmdV1Header.set_sender_index, h]

/-- Witness for C8 at `k = 3`. -/
theorem C8_sender_index_masking_witness :
    encode_command_packet (fun _ _ => 0) (fun _ => 0)
        1 3 2 0 5 1 0 0 9 240 [4, 5] =
      encode_command_packet (fun _ _ => 0) (fun _ => 0)
        1 11 2 0 5 1 0 0 9 240 [4, 5] :=
  C8_sender_index_masking (fun _ _ => 0) (fun _ => 0)
    1 2 0 5 1 0 0 9 240 3 [4, 5] (by norm_num)

end Dupc

namespace Dupc

theorem encode_length (cs8 : Nat → List Nat → Nat) (cs16 : List Nat → Nat)
    (st si rt ri sq pt ak et cs ci : Nat) (p : List Nat) :
    (encode_command_packet cs8 cs16 st si rt ri sq pt ak et cs ci p).length =
      13 + p.length := by
  rw [encode_eq, encodedHeader_toBytes]
  simp
  omega

theorem encodedHeader_toBytes_length (cs8 : Nat → List Nat → Nat)
    (st si rt ri sq pt ak et cs ci len : Nat) :
    (encodedHeader cs8 st si rt ri sq pt ak et cs ci len).toBytes.length = 11 := by
  rw [encodedHeader_toBytes]
  rfl

/-- C7: in every packet built by `encode_command_packet`, the final 2
bytes of the returned buffer hold, little-endian, the 16-bit value
`checksum16` computed over all preceding bytes of the buffer — the full
header and payload, everything except the 2 checksum bytes themselves.
`cs16` stands for the external `calc_pkt55_checksum` collaborator,
assumed (as a 16-bit checksum) to return a 16-bit value. -/
theorem C7_whole_packet_checksum
    (cs8 : Nat → List Nat → Nat) (cs16 : List Nat → Nat)
    (hc16 : ∀ b, cs16 b < 65536)
    (st si rt ri sq pt ak et cs ci : Nat) (p : List Nat) :
    encode_command_packet cs8 cs16 st si rt ri sq pt ak et cs ci p =
      (encode_command_packet cs8 cs16 st si rt ri sq pt ak et cs ci p).take
        ((encode_command_packet cs8 cs16 st si rt ri sq pt ak et cs ci
          p).length - 2) ++
      [cs16 ((encode_command_packet cs8 cs16 st si rt ri sq pt ak et cs ci
          p).take ((encode_command_packet cs8 cs16 st si rt ri sq pt ak et cs ci
          p).length - 2)) % 256,
       cs16 ((encode_command_packet cs8 cs16 st si rt ri sq pt ak et cs ci
          p).take ((encode_command_packet cs8 cs16 st si rt ri sq pt ak et cs ci
          p).length - 2)) / 256] ∧
    u16le (encode_command_packet cs8 cs16 st si rt ri sq pt ak et cs ci p)
        ((encode_command_packet cs8 cs16 st si rt ri sq pt ak et cs ci
          p).length - 2) =
      cs16 ((encode_command_packet cs8 cs16 st si rt ri sq pt ak et cs ci
        p).take ((encode_command_packet cs8 cs16 st si rt ri sq pt ak et cs ci
        p).length - 2)) := by
  have hlen := encode_length cs8 cs16 st si rt ri sq pt ak et cs ci p
  have hE := encode_eq' cs8 cs16 st si rt ri sq pt ak et cs ci p
  set B := (encodedHeader cs8 st si rt ri sq pt ak et cs ci
    p.length).toBytes ++ p with hB
  set E := encode_command_packet cs8 cs16 st si rt ri sq pt ak et cs ci p
    with hEdef
  have hBlen : B.length = 11 + p.length := by
    simp [hB, encodedHeader_toBytes_length]
  have hcut : E.length - 2 = B.length := by omega
  have htake : E.take (E.length - 2) = B := by
    rw [hcut, hE]
    exact List.take_left _ _
  have hv := hc16 B
  have e1 : cs16 B % 65536 = cs16 B := Nat.mod_eq_of_lt hv
  constructor
  · rw [htake, hE, e1]
    have e2 : cs16 B / 256 % 256 = cs16 B / 256 :=
      Nat.mod_eq_of_lt (by omega)
    rw [e2]
  · rw [htake, u16le, hcut, hE]
    rw [List.getD_append_right _ _ _ _ (le_refl _),
      List.getD_append_right _ _ _ _ (by omega)]
    simp only [Nat.sub_self]
    have e3 : B.length + 1 - B.length = 1 := by omega
    rw [e3]
    simp only [List.getD_cons_succ, List.getD_cons_zero]
    rw [e1]
    omega

/-- Witness for C7 at a concrete input, with the constant 16-bit
checksum collaborator `fun _ => 4660`. -/
theorem C7_whole_packet_checksum_witness :
    u16le (encode_command_packet (fun _ _ => 0) (fun _ => 4660)
        1 2 3 4 5 6 7 8 9 10 [1, 2, 3])
      ((encode_command_packet (fun _ _ => 0) (fun _ => 4660)
        1 2 3 4 5 6 7 8 9 10 [1, 2, 3]).length - 2) =
      (fun _ => 4660) ((encode_command_packet (fun _ _ => 0) (fun _ => 4660)
        1 2 3 4 5 6 7 8 9 10 [1, 2, 3]).take
        ((encode_command_packet (fun _ _ => 0) (fun _ => 4660)
          1 2 3 4 5 6 7 8 9 10 [1, 2, 3]).length - 2)) :=
  (C7_whole_packet_checksum (fun _ _ => 0) (fun _ => 4660)
    (fun _ => by norm_num) 1 2 3 4 5 6 7 8 9 10 [1, 2, 3]).2

end Dupc

namespace Dupc

/-- C1: for the routing key (FLYCONTROLLER, response, 0xF0), whenever
`len(payload) >= 20` (the 19-byte fixed prefix plus at least one name
byte), `get_known_payload` right-pads the payload with zero bytes to
the full maximum record size (179 bytes) and returns: the record with
signed 32-bit limit fields when the parsed `typeTag` lies in [4,7], the
record with 32-bit floating-point limit fields when `typeTag` is 8 or
9, and otherwise the default record with unsigned 32-bit limit fields —
in every case parsed from the same zero-padded bytes
`ljust p sizeof_GetParamDefinitionU2015Re`. -/
theorem C1_variant_resolution (pkthead : DJICmdV1Header) (p : List Nat)
    (hset : pkthead.cmd_set = 3) (hpt : pkthead.packet_type = 1)
    (hid : pkthead.cmd_id = 0xf0) (hlen : 20 ≤ p.length) :
    get_known_payload pkthead p =
      some
        (if 4 ≤ (parseGetParamDefinitionU2015Re
              (ljust p sizeof_GetParamDefinitionU2015Re)).type_id ∧
            (parseGetParamDefinitionU2015Re
              (ljust p sizeof_GetParamDefinitionU2015Re)).type_id ≤ 7 then
          .fcGetParamDefinitionI2015Re (parseGetParamDefinitionI2015Re
            (ljust p sizeof_GetParamDefinitionU2015Re))
        else if (parseGetParamDefinitionU2015Re
              (ljust p sizeof_GetParamDefinitionU2015Re)).type_id = 8 ∨
            (parseGetParamDefinitionU2015Re
              (ljust p sizeof_GetParamDefinitionU2015Re)).type_id = 9 then
          .fcGetParamDefinitionF2015Re (parseGetParamDefinitionF2015Re
            (ljust p sizeof_GetParamDefinitionU2015Re))
        else
          .fcGetParamDefinitionU2015Re (parseGetParamDefinitionU2015Re
            (ljust p sizeof_GetParamDefinitionU2015Re))) := by
  have h20 : sizeof_GetParamDefinitionU2015Re -
      DJIPayload_FlyController_ParamMaxLen + 1 ≤ p.length := by
    simp only [sizeof_GetParamDefinitionU2015Re,
      DJIPayload_FlyController_ParamMaxLen]
    omega
  simp only [get_known_payload, hset, hpt, hid, h20]
  norm_num
  split_ifs <;> rfl

/-- Witness for C1: a 20-byte payload with `typeTag = 2` resolves to
the default unsigned record parsed from the zero-padded bytes. -/
theorem C1_variant_resolution_witness :
    get_known_payload ⟨85, 1037, 0, 0, 0, 0, 128, 3, 240⟩
        [6, 2, 0, 1, 0, 2, 0, 3, 0, 0, 0, 4, 0, 0, 0, 5, 0, 0, 0, 65] =
      some
        (if 4 ≤ (parseGetParamDefinitionU2015Re
              (ljust [6, 2, 0, 1, 0, 2, 0, 3, 0, 0, 0, 4, 0, 0, 0, 5, 0, 0, 0,
                65] sizeof_GetParamDefinitionU2015Re)).type_id ∧
            (parseGetParamDefinitionU2015Re
              (ljust [6, 2, 0, 1, 0, 2, 0, 3, 0, 0, 0, 4, 0, 0, 0, 5, 0, 0, 0,
                65] sizeof_GetParamDefinitionU2015Re)).type_id ≤ 7 then
          .fcGetParamDefinitionI2015Re (parseGetParamDefinitionI2015Re
            (ljust [6, 2, 0, 1, 0, 2, 0, 3, 0, 0, 0, 4, 0, 0, 0, 5, 0, 0, 0,
              65] sizeof_GetParamDefinitionU2015Re))
        else if (parseGetParamDefinitionU2015Re
              (ljust [6, 2, 0, 1, 0, 2, 0, 3, 0, 0, 0, 4, 0, 0, 0, 5, 0, 0, 0,
                65] sizeof_GetParamDefinitionU2015Re)).type_id = 8 ∨
            (parseGetParamDefinitionU2015Re
              (ljust [6, 2, 0, 1, 0, 2, 0, 3, 0, 0, 0, 4, 0, 0, 0, 5, 0, 0, 0,
                65] sizeof_GetParamDefinitionU2015Re)).type_id = 9 then
          .fcGetParamDefinitionF2015Re (parseGetParamDefinitionF2015Re
            (ljust [6, 2, 0, 1, 0, 2, 0, 3, 0, 0, 0, 4, 0, 0, 0, 5, 0, 0, 0,
              65] sizeof_GetParamDefinitionU2015Re))
        else
          .fcGetParamDefinitionU2015Re (parseGetParamDefinitionU2015Re
            (ljust [6, 2, 0, 1, 0, 2, 0, 3, 0, 0, 0, 4, 0, 0, 0, 5, 0, 0, 0,
              65] sizeof_GetParamDefinitionU2015Re))) :=
  C1_variant_resolution ⟨85, 1037, 0, 0, 0, 0, 128, 3, 240⟩
    [6, 2, 0, 1, 0, 2, 0, 3, 0, 0, 0, 4, 0, 0, 0, 5, 0, 0, 0, 65]
    rfl rfl rfl (by norm_num)

/-- C6: for the routing key (FLYCONTROLLER, response, 0xF0), a payload
with `1 <= len(payload) <= 19` (too short for the full variant, at
least the status byte present) resolves to the short
end-of-parameter-list record whose status field is payload byte 0; an
empty payload resolves to the no-match sentinel `none`. -/
theorem C6_eol_short_and_empty (pkthead : DJICmdV1Header) (p : List Nat)
    (hset : pkthead.cmd_set = 3) (hpt : pkthead.packet_type = 1)
    (hid : pkthead.cmd_id = 0xf0) :
    (1 ≤ p.length → p.length ≤ 19 →
      get_known_payload pkthead p =
        some (.fcGetParamDefinitionEOL2015Re ⟨p.getD 0 0⟩)) ∧
    (p.length = 0 → get_known_payload pkthead p = none) := by
  constructor
  · intro h1 h19
    have h20 : ¬ (sizeof_GetParamDefinitionU2015Re -
        DJIPayload_FlyController_ParamMaxLen + 1 ≤ p.length) := by
      simp only [sizeof_GetParamDefinitionU2015Re,
        DJIPayload_FlyController_ParamMaxLen]
      omega
    have h1' : sizeof_GetParamDefinitionEOL2015Re ≤ p.length := h1
    simp only [get_known_payload, hset, hpt, hid, h20, h1',
      parseGetParamDefinitionEOL2015Re]
    norm_num
  · intro h0
    have h20 : ¬ (sizeof_GetParamDefinitionU2015Re -
        DJIPayload_FlyController_ParamMaxLen + 1 ≤ p.length) := by
      simp only [sizeof_GetParamDefinitionU2015Re,
        DJIPayload_FlyController_ParamMaxLen]
      omega
    have h1 : ¬ (sizeof_GetParamDefinitionEOL2015Re ≤ p.length) := by
      simp only [sizeof_GetParamDefinitionEOL2015Re]
      omega
    simp only [get_known_payload, hset, hpt, hid, h20, h1]
    norm_num

/-- Witness for C6: a 1-byte payload `[9]` yields the EOL record with
status 9; the empty payload yields `none`. -/
theorem C6_eol_short_and_empty_witness :
    get_known_payload ⟨85, 1037, 0, 0, 0, 0, 128, 3, 240⟩ [9] =
      some (.fcGetParamDefinitionEOL2015Re ⟨9⟩) ∧
    get_known_payload ⟨85, 1037, 0, 0, 0, 0, 128, 3, 240⟩ [] = none := by
  constructor
  · exact (C6_eol_short_and_empty ⟨85, 1037, 0, 0, 0, 0, 128, 3, 240⟩ [9]
      rfl rfl rfl).1 (by norm_num) (by norm_num)
  · exact (C6_eol_short_and_empty ⟨85, 1037, 0, 0, 0, 0, 128, 3, 240⟩ []
      rfl rfl rfl).2 rfl

end Dupc

namespace Dupc

/-- C3 counterexample: the claim says callers can distinguish the
"unrecognized command" result (routing key with no catalog entry, here
(CAMERA=2, response, 0x99)) from the "unrecognized payload shape"
result (known key (FLYCONTROLLER, response, 0xF0) with a 0-byte
payload).  In the code both cases return the very same `None` sentinel,
so the two results are equal and indistinguishable. -/
theorem C3_indistinguishable_counterexample :
    get_known_payload ⟨85, 1037, 0, 0, 0, 0, 128, 3, 240⟩ [] = none ∧
    get_known_payload ⟨85, 1037, 0, 0, 0, 0, 128, 2, 153⟩ [1, 2, 3] = none ∧
    get_known_payload ⟨85, 1037, 0, 0, 0, 0, 128, 3, 240⟩ [] =
      get_known_payload ⟨85, 1037, 0, 0, 0, 0, 128, 2, 153⟩ [1, 2, 3] := by
  decide

/-- C3 (amended): `get_known_payload` returns the same `None` sentinel
both for a routing key with no catalog entry (any header with
`commandSet = CAMERA = 2`, for which no entry exists) and for the known
key (FLYCONTROLLER, response, 0xF0) with a payload too short for any of
its variants; the two cases are not distinguishable from the return
value. -/
theorem C3_no_match_sentinels (h h' : DJICmdV1Header) (p : List Nat)
    (hcam : h.cmd_set = 2)
    (hset : h'.cmd_set = 3) (hpt : h'.packet_type = 1)
    (hid : h'.cmd_id = 0xf0) :
    get_known_payload h p = none ∧
    get_known_payload h' [] = none ∧
    get_known_payload h p = get_known_payload h' [] := by
  have h1 : get_known_payload h p = none := by
    simp [get_known_payload, hcam]
  have h2 : get_known_payload h' [] = none := by
    simp [get_known_payload, hset, hpt, hid, sizeof_GetParamDefinitionU2015Re,
      DJIPayload_FlyController_ParamMaxLen, sizeof_GetParamDefinitionEOL2015Re]
  exact ⟨h1, h2, h1.trans h2.symm⟩

/-- Witness for C3 (amended) at concrete headers and payload. -/
theorem C3_no_match_sentinels_witness :
    get_known_payload ⟨85, 1037, 0, 0, 0, 0, 128, 2, 153⟩ [1, 2, 3] = none ∧
    get_known_payload ⟨85, 1037, 0, 0, 0, 0, 128, 3, 240⟩ [] = none ∧
    get_known_payload ⟨85, 1037, 0, 0, 0, 0, 128, 2, 153⟩ [1, 2, 3] =
      get_known_payload ⟨85, 1037, 0, 0, 0, 0, 128, 3, 240⟩ [] :=
  C3_no_match_sentinels ⟨85, 1037, 0, 0, 0, 0, 128, 2, 153⟩
    ⟨85, 1037, 0, 0, 0, 0, 128, 3, 240⟩ [1, 2, 3] rfl rfl rfl rfl

end Dupc

namespace Dupc

theorem u16le_append (p extra : List Nat) (n : Nat) (h : n + 1 < p.length) :
    u16le (p ++ extra) n = u16le p n := by
  rw [u16le, u16le, List.getD_append _ _ _ _ (by omega),
    List.getD_append _ _ _ _ (by omega)]

theorem u32le_append (p extra : List Nat) (n : Nat) (h : n + 3 < p.length) :
    u32le (p ++ extra) n = u32le p n := by
  rw [u32le, u32le, List.getD_append _ _ _ _ (by omega),
    List.getD_append _ _ _ _ (by omega), List.getD_append _ _ _ _ (by omega),
    List.getD_append _ _ _ _ (by omega)]

theorem drop_take_append (p extra : List Nat) (n m : Nat)
    (h : n + m ≤ p.length) :
    ((p ++ extra).drop n).take m = (p.drop n).take m := by
  rw [List.drop_append_of_le_length (by omega),
    List.take_append_of_le_length (by simp; omega)]

theorem ljust_of_le (p : List Nat) (w : Nat) (h : w ≤ p.length) :
    ljust p w = p := by
  simp [ljust, Nat.sub_eq_zero_of_le h]

theorem parseU_append (p extra : List Nat) (h : 179 ≤ p.length) :
    parseGetParamDefinitionU2015Re (p ++ extra) =
      parseGetParamDefinitionU2015Re p := by
  rw [parseGetParamDefinitionU2015Re, parseGetParamDefinitionU2015Re]
  rw [List.getD_append _ _ _ _ (by omega), u16le_append _ _ _ (by omega),
    u16le_append _ _ _ (by omega), u16le_append _ _ _ (by omega),
    u32le_append _ _ _ (by omega), u32le_append _ _ _ (by omega),
    u32le_append _ _ _ (by omega),
    drop_take_append _ _ _ _ (by simp [DJIPayload_FlyController_ParamMaxLen]; omega)]

theorem parseI_append (p extra : List Nat) (h : 179 ≤ p.length) :
    parseGetParamDefinitionI2015Re (p ++ extra) =
      parseGetParamDefinitionI2015Re p := by
  rw [parseGetParamDefinitionI2015Re, parseGetParamDefinitionI2015Re]
  rw [List.getD_append _ _ _ _ (by omega), u16le_append _ _ _ (by omega),
    u16le_append _ _ _ (by omega), u16le_append _ _ _ (by omega),
    drop_take_append _ _ _ _ (by simp [DJIPayload_FlyController_ParamMaxLen]; omega)]
  rw [i32le, i32le, i32le, i32le, i32le, i32le,
    u32le_append _ _ _ (by omega), u32le_append _ _ _ (by omega),
    u32le_append _ _ _ (by omega)]

theorem parseF_append (p extra : List Nat) (h : 179 ≤ p.length) :
    parseGetParamDefinitionF2015Re (p ++ extra) =
      parseGetParamDefinitionF2015Re p := by
  rw [parseGetParamDefinitionF2015Re, parseGetParamDefinitionF2015Re]
  rw [List.getD_append _ _ _ _ (by omega), u16le_append _ _ _ (by omega),
    u16le_append _ _ _ (by omega), u16le_append _ _ _ (by omega),
    u32le_append _ _ _ (by omega), u32le_append _ _ _ (by omega),
    u32le_append _ _ _ (by omega),
    drop_take_append _ _ _ _ (by simp [DJIPayload_FlyController_ParamMaxLen]; omega)]

theorem parseVersionInquiryRe_append (p extra : List Nat)
    (h : 31 ≤ p.length) :
    parseVersionInquiryRe (p ++ extra) = parseVersionInquiryRe p := by
  rw [parseVersionInquiryRe, parseVersionInquiryRe]
  rw [List.getD_append _ _ _ _ (by omega), List.getD_append _ _ _ _ (by omega),
    List.getD_append _ _ _ _ (by omega), u32le_append _ _ _ (by omega),
    u32le_append _ _ _ (by omega), u32le_append _ _ _ (by omega),
    drop_take_append _ _ _ _ (by omega)]

/-- C10: `get_known_payload` is a total function of the decoded header
and payload (the Lean model is a total function by construction,
mirroring the source's length-guarded parses, and returns either a
structured record or the `none` sentinel); in particular, a payload
longer than the largest declared structure size (179 bytes) can be
extended by arbitrary extra bytes without changing the result — the
excess bytes beyond the matched structure's declared size are ignored
for every routing key. -/
theorem C10_total_excess_ignored (pkthead : DJICmdV1Header)
    (p extra : List Nat) (hlen : 179 ≤ p.length) :
    ((get_known_payload pkthead p).isSome ∨
      get_known_payload pkthead p = none) ∧
    get_known_payload pkthead (p ++ extra) = get_known_payload pkthead p := by
  constructor
  · cases get_known_payload pkthead p <;> simp
  · have hl : (p ++ extra).length = p.length + extra.length := by simp
    have c1 : sizeof_VersionInquiryRe ≤ p.length := by
      simp only [sizeof_VersionInquiryRe]; omega
    have c1' : sizeof_VersionInquiryRe ≤ (p ++ extra).length := by
      simp only [sizeof_VersionInquiryRe]; simp; omega
    have c2 : sizeof_ChipRebootRe ≤ p.length := by
      simp only [sizeof_ChipRebootRe]; omega
    have c2' : sizeof_ChipRebootRe ≤ (p ++ extra).length := by
      simp only [sizeof_ChipRebootRe]; simp; omega
    have c3 : sizeof_GetParamDefinition2015Rq ≤ p.length := by
      simp only [sizeof_GetParamDefinition2015Rq]; omega
    have c3' : sizeof_GetParamDefinition2015Rq ≤ (p ++ extra).length := by
      simp only [sizeof_GetParamDefinition2015Rq]; simp; omega
    have c4 : sizeof_GetParamDefinitionU2015Re -
        DJIPayload_FlyController_ParamMaxLen + 1 ≤ p.length := by
      simp only [sizeof_GetParamDefinitionU2015Re,
        DJIPayload_FlyController_ParamMaxLen]
      omega
    have c4' : sizeof_GetParamDefinitionU2015Re -
        DJIPayload_FlyController_ParamMaxLen + 1 ≤ (p ++ extra).length := by
      simp only [sizeof_GetParamDefinitionU2015Re,
        DJIPayload_FlyController_ParamMaxLen]
      simp; omega
    have hju : ljust p sizeof_GetParamDefinitionU2015Re = p :=
      ljust_of_le _ _ (by
        simp only [sizeof_GetParamDefinitionU2015Re,
          DJIPayload_FlyController_ParamMaxLen]
        omega)
    have hju' : ljust (p ++ extra) sizeof_GetParamDefinitionU2015Re =
        p ++ extra :=
      ljust_of_le _ _ (by
        simp only [sizeof_GetParamDefinitionU2015Re,
          DJIPayload_FlyController_ParamMaxLen]
        simp; omega)
    have hji : ljust p sizeof_GetParamDefinitionI2015Re = p :=
      ljust_of_le _ _ (by
        simp only [sizeof_GetParamDefinitionI2015Re,
          DJIPayload_FlyController_ParamMaxLen]
        omega)
    have hji' : ljust (p ++ extra) sizeof_GetParamDefinitionI2015Re =
        p ++ extra :=
      ljust_of_le _ _ (by
        simp only [sizeof_GetParamDefinitionI2015Re,
          DJIPayload_FlyController_ParamMaxLen]
        simp; omega)
    have hjf : ljust p sizeof_GetParamDefinitionF2015Re = p :=
      ljust_of_le _ _ (by
        simp only [sizeof_GetParamDefinitionF2015Re,
          DJIPayload_FlyController_ParamMaxLen]
        omega)
    have hjf' : ljust (p ++ extra) sizeof_GetParamDefinitionF2015Re =
        p ++ extra :=
      ljust_of_le _ _ (by
        simp only [sizeof_GetParamDefinitionF2015Re,
          DJIPayload_FlyController_ParamMaxLen]
        simp; omega)
    simp only [get_known_payload, c1, c1', c2, c2', c3, c3', c4, c4',
      and_true, if_true, hju, hju', hji, hji', hjf, hjf',
      parseU_append p extra hlen,
      parseI_append p extra hlen, parseF_append p extra hlen,
      parseVersionInquiryRe_append p extra c1]
    have hrq : parseGetParamDefinition2015Rq (p ++ extra) =
        parseGetParamDefinition2015Rq p := by
      rw [parseGetParamDefinition2015Rq, parseGetParamDefinition2015Rq,
        u16le_append _ _ _ (by omega)]
    have hcr : parseChipRebootRe (p ++ extra) = parseChipRebootRe p := by
      rw [parseChipRebootRe, parseChipRebootRe,
        List.getD_append _ _ _ _ (by omega)]
    rw [hrq, hcr]

/-- Witness for C10 at a concrete 179-byte payload and extra bytes. -/
theorem C10_total_excess_ignored_witness :
    ((get_known_payload ⟨85, 1037, 0, 0, 0, 0, 128, 3, 240⟩
        (List.replicate 179 1)).isSome ∨
      get_known_payload ⟨85, 1037, 0, 0, 0, 0, 128, 3, 240⟩
        (List.replicate 179 1) = none) ∧
    get_known_payload ⟨85, 1037, 0, 0, 0, 0, 128, 3, 240⟩
        (List.replicate 179 1 ++ [7, 7]) =
      get_known_payload ⟨85, 1037, 0, 0, 0, 0, 128, 3, 240⟩
        (List.replicate 179 1) :=
  C10_total_excess_ignored ⟨85, 1037, 0, 0, 0, 0, 128, 3, 240⟩
    (List.replicate 179 1) [7, 7] (by rw [List.length_replicate])

end Dupc

namespace Dupc

/-- The HeaderCodec encode side implied by `DJICmdV1Header`: assign
every bit-packed property of a freshly created (zero-initialised)
ctypes structure through its source setter, and the three plain
machine-word fields through their silently-truncating ctypes stores
(`c_ushort`/`c_ubyte`), exactly as any caller of the class does. -/
def buildHeader (version whole_length sender_type sender_index
    receiver_type receiver_index pack_type ack_type encrypt_type
    seq_num cmd_set cmd_id : Nat) : DJICmdV1Header :=
  let h := DJICmdV1Header.zeroed
  let h := h.set_version version
  let h := h.set_whole_length whole_length
  let h := h.set_sender_type sender_type
  let h := h.set_sender_index sender_index
  let h := h.set_receiver_type receiver_type
  let h := h.set_receiver_index receiver_index
  let h := h.set_packet_type pack_type
  let h := h.set_ack_type ack_type
  let h := h.set_encrypt_type encrypt_type
  let h := { h with seq_num := seq_num % 65536 }
  let h := { h with cmd_set := cmd_set % 256 }
  { h with cmd_id := cmd_id % 256 }


theorem verlen_word_pack (v tl : Nat) :
    ((((0 &&& 1023) ||| ((v &&& 63) <<< 10)) &&& 64512) ||| (tl &&& 1023)) =
      1024 * (v % 64) + tl % 1024 := by
  rw [Nat.zero_and, Nat.zero_or, land_63, land_1023, land_64512]
  have hs : (v % 64) <<< 10 = v % 64 * 1024 := by
    rw [Nat.shiftLeft_eq]
  rw [hs]
  have e1 : v % 64 * 1024 / 1024 % 64 * 1024 = v % 64 * 1024 := by omega
  rw [e1]
  have h := shl_or_eq_add (v % 64) (tl % 1024) 10
    (by norm_num; exact Nat.mod_lt tl (by norm_num))
  rw [hs] at h
  rw [h]
  norm_num
  ring

theorem buildHeader_fields (v tl st si rt ri pt ak et sq cs ci : Nat) :
    buildHeader v tl st si rt ri pt ak et sq cs ci =
      { sof := 0
        ver_length_tag := 1024 * (v % 64) + tl % 1024
        header_crc8 := 0
        sender_info := 32 * (si % 8) + st % 32
        receiver_info := 32 * (ri % 8) + rt % 32
        seq_num := sq % 65536
        cmd_type_data := 128 * (pt % 2) + 32 * (ak % 4) + et % 8
        cmd_set := cs % 256
        cmd_id := ci % 256 } := by
  simp only [buildHeader, DJICmdV1Header.zeroed, DJICmdV1Header.set_version,
    DJICmdV1Header.set_whole_length, DJICmdV1Header.set_sender_type,
    DJICmdV1Header.set_sender_index, DJICmdV1Header.set_receiver_type,
    DJICmdV1Header.set_receiver_index, DJICmdV1Header.set_packet_type,
    DJICmdV1Header.set_ack_type, DJICmdV1Header.set_encrypt_type]
  rw [verlen_word_pack, sender_word_pack, sender_word_pack,
    cmd_type_word_pack]

theorem fromBytes_toBytes (h : DJICmdV1Header)
    (b1 : h.sof < 256) (b2 : h.ver_length_tag < 65536)
    (b3 : h.header_crc8 < 256) (b4 : h.sender_info < 256)
    (b5 : h.receiver_info < 256) (b6 : h.seq_num < 65536)
    (b7 : h.cmd_type_data < 256) (b8 : h.cmd_set < 256)
    (b9 : h.cmd_id < 256) :
    DJICmdV1Header.fromBytes h.toBytes = some h := by
  obtain ⟨sof, tag, crc, snd, rcv, seq, ctd, cset, cid⟩ := h
  simp only [DJICmdV1Header.sof, DJICmdV1Header.ver_length_tag,
    DJICmdV1Header.header_crc8, DJICmdV1Header.sender_info,
    DJICmdV1Header.receiver_info, DJICmdV1Header.seq_num,
    DJICmdV1Header.cmd_type_data, DJICmdV1Header.cmd_set,
    DJICmdV1Header.cmd_id] at b1 b2 b3 b4 b5 b6 b7 b8 b9
  simp [DJICmdV1Header.fromBytes, DJICmdV1Header.toBytes,
    DJICmdV1Header.sizeof_hdr, DJICmdV1Header.mk.injEq]
  all_goals omega

/-- C5 counterexample: encoding a header produces 11 header bytes, not
9 — `sizeof(DJICmdV1Header)` is 11 and `commandSet`/`commandId` live at
offsets 9 and 10 — and decoding only "the 9 header bytes" (the first 9)
is rejected by `from_buffer_copy` (buffer shorter than the structure),
so it cannot yield the original field values. -/
theorem C5_roundtrip_counterexample :
    (buildHeader 1 13 10 0 3 0 1 0 0 5 9 7).toBytes.length = 11 ∧
    (11 ≠ 9) ∧
    DJICmdV1Header.fromBytes
      ((buildHeader 1 13 10 0 3 0 1 0 0 5 9 7).toBytes.take 9) = none := by
  decide

/-- C5 (amended): for every assignment of header fields, decoding the
11 header bytes produced by encoding yields each original field value
reduced modulo its declared bit width (`version` mod 2^6, `totalLength`
mod 2^10, device types mod 2^5, module indices mod 2^3, direction mod
2, acknowledgement policy mod 2^2, encryption scheme mod 2^3,
`sequenceNumber` mod 2^16, `commandSet` and `commandId` mod 2^8) —
hence exactly the original values when they lie within their declared
widths, and mask-truncated values (no rejection) otherwise. -/
theorem C5_header_roundtrip (v tl st si rt ri pt ak et sq cs ci : Nat) :
    (buildHeader v tl st si rt ri pt ak et sq cs ci).toBytes.length = 11 ∧
    ∃ h, DJICmdV1Header.fromBytes
        ((buildHeader v tl st si rt ri pt ak et sq cs ci).toBytes) = some h ∧
      h.version = v % 64 ∧
      h.whole_length = tl % 1024 ∧
      h.sender_type = st % 32 ∧
      h.sender_index = si % 8 ∧
      h.receiver_type = rt % 32 ∧
      h.receiver_index = ri % 8 ∧
      h.packet_type = pt % 2 ∧
      h.ack_type = ak % 4 ∧
      h.encrypt_type = et % 8 ∧
      h.seq_num = sq % 65536 ∧
      h.cmd_set = cs % 256 ∧
      h.cmd_id = ci % 256 := by
  rw [buildHeader_fields]
  refine ⟨rfl, buildHeader v tl st si rt ri pt ak et sq cs ci, ?_, ?_, ?_,
    ?_, ?_, ?_, ?_, ?_, ?_, ?_, ?_, ?_, ?_⟩
  · rw [buildHeader_fields]
    exact fromBytes_toBytes _ (by norm_num)
      (by show 1024 * (v % 64) + tl % 1024 < 65536; omega)
      (by norm_num)
      (by show 32 * (si % 8) + st % 32 < 256; omega)
      (by show 32 * (ri % 8) + rt % 32 < 256; omega)
      (by show sq % 65536 < 65536; omega)
      (by show 128 * (pt % 2) + 32 * (ak % 4) + et % 8 < 256; omega)
      (by show cs % 256 < 256; omega)
      (by show ci % 256 < 256; omega)
  · rw [buildHeader_fields, DJICmdV1Header.version]
    simp only
    rw [land_64512, Nat.shiftRight_eq_div_pow]
    norm_num
    omega
  · rw [buildHeader_fields, DJICmdV1Header.whole_length]
    simp only
    rw [land_1023]
    omega
  · rw [buildHeader_fields, DJICmdV1Header.sender_type]
    simp only
    rw [land_31]
    omega
  · rw [buildHeader_fields, DJICmdV1Header.sender_index]
    simp only
    rw [land_224, Nat.shiftRight_eq_div_pow]
    norm_num
    omega
  · rw [buildHeader_fields, DJICmdV1Header.receiver_type]
    simp only
    rw [land_31]
    omega
  · rw [buildHeader_fields, DJICmdV1Header.receiver_index]
    simp only
    rw [land_224, Nat.shiftRight_eq_div_pow]
    norm_num
    omega
  · rw [buildHeader_fields, DJICmdV1Header.packet_type]
    simp only
    rw [Nat.shiftRight_eq_div_pow]
    norm_num
    omega
  · rw [buildHeader_fields, DJICmdV1Header.ack_type]
    simp only
    rw [Nat.shiftRight_eq_div_pow, land_3]
    norm_num
    omega
  · rw [buildHeader_fields, DJICmdV1Header.encrypt_type]
    simp only
    rw [land_7]
    omega
  · rw [buildHeader_fields]
  · rw [buildHeader_fields]
  · rw [buildHeader_fields]

end Dupc
